import Mathlib

/-!
Verification of the ATR scalping engine (SALBO-Y/ATR_1).

Shallow embedding of the signal / order-execution / position-lifecycle core:
prices and rates are `ℚ`, wall-clock instants are `ℕ` seconds, dictionaries
are association lists where the first matching key wins (a freshly stored
entry is consed in front).  Following the Lean convention, `ℚ` division by
zero yields `0`; every place where the Python source could actually divide
by zero is noted at the definition.  Korean human-readable reason strings
are replaced by the inductive `ExitReason` (the pair `(False, "")` of the
source becomes `none`).
-/

namespace ATR

/-- Exit reasons produced by `check_exit_signal`
(`src/advanced_scalping_bot.py` lines 361-427).  `profitTarget` = "익절",
`trailingStop` = "트레일링 스톱", `timeProfit` = "시간 익절",
`hardStop` = "하드 스톱", `techStop` = "기술적 스톱", `timeLoss` = "시간 손절",
`emergency` = "긴급 탈출". -/
inductive ExitReason where
  | profitTarget
  | trailingStop
  | timeProfit
  | hardStop
  | techStop
  | timeLoss
  | emergency
  deriving DecidableEq, Repr

/-- The `Strategy` class constants used by the exit/risk logic
(`src/advanced_scalping_bot.py` lines 80-129; the same values appear in
`src/advanced_scalping_realtime.py` lines 79-124). -/
structure Strategy where
  baseProfit : ℚ
  trailingStart : ℚ
  trailingOffset : ℚ
  hardStop : ℚ
  techStopOffset : ℚ
  timeProfitHours : ℕ
  timeProfitMin : ℚ
  timeLossHours : ℕ
  timeLossMax : ℚ
  emergencyDrop : ℚ
  consecutiveLoss : ℕ
  cooldownSeconds : ℕ
  dailyLossLimit : ℚ
  minWinRate : ℚ
  maxDrawdown : ℚ
  deriving DecidableEq, Repr

/-- The concrete values of the `Strategy` class constants
(`src/advanced_scalping_bot.py` lines 102-128). -/
def defaultStrategy : Strategy where
  baseProfit := 3 / 100
  trailingStart := 5 / 100
  trailingOffset := 2 / 100
  hardStop := 25 / 1000
  techStopOffset := 3 / 1000
  timeProfitHours := 2
  timeProfitMin := 1 / 100
  timeLossHours := 1
  timeLossMax := -(1 / 100)
  emergencyDrop := 15 / 1000
  consecutiveLoss := 3
  cooldownSeconds := 3600
  dailyLossLimit := 5 / 100
  minWinRate := 60 / 100
  maxDrawdown := 10 / 100

/-- A position dict as created by `AdvancedScalpingSystem.execute_buy`
(`src/advanced_scalping_bot.py` lines 963-970): keys `buy_price`, `qty`,
`entry_time`, `peak_price`, `trailing_active`, plus the key `price_1m_ago`
that `check_exit_signal` adds later (`none` = key absent). -/
structure Position where
  buyPrice : ℚ
  qty : ℕ
  entryTime : ℕ
  peakPrice : ℚ
  trailingActive : Bool
  price1mAgo : Option ℚ
  deriving DecidableEq, Repr

/-- A 5-minute candle dict as built by `CandleBuilder`
(`src/realtime_modules.py` lines 93-100): keys `time`, `open`, `high`,
`low`, `close`, `volume`.  `time` is the bucket start in seconds. -/
structure Candle where
  time : ℕ
  open_ : ℚ
  high : ℚ
  low : ℚ
  close : ℚ
  volume : ℕ
  deriving DecidableEq, Repr

/-- `timedelta.seconds` of a non-negative difference of `datetime`s:
the within-day seconds component, i.e. the difference modulo 86400.
Both `check_exit_signal` and the bot's `should_stop_trading` use
`(datetime.now() - t).seconds` rather than `.total_seconds()`. -/
def tdSeconds (d : ℕ) : ℕ := d % 86400

/-- `candles[-2]['low']` when `len(candles) >= 2`
(`src/advanced_scalping_bot.py` lines 406-408). -/
def prevLow (cs : List Candle) : Option ℚ :=
  if h : 2 ≤ cs.length then some (cs.get ⟨cs.length - 2, by omega⟩).low else none

/-- The technical-stop test `current_price < prev_low * (1 - TECH_STOP_OFFSET)`
guarded by `len(candles) >= 2` (`src/advanced_scalping_bot.py` lines 405-411). -/
def techStopHit (st : Strategy) (candles : List Candle) (price : ℚ) : Bool :=
  match prevLow candles with
  | some lo => decide (price < lo * (1 - st.techStopOffset))
  | none => false

/-- The emergency-exit test `(price_1m_ago - current_price)/price_1m_ago >=
EMERGENCY_DROP` guarded by `'price_1m_ago' in position`
(`src/advanced_scalping_bot.py` lines 418-421). -/
def emergencyHit (st : Strategy) (price1mAgo : Option ℚ) (price : ℚ) : Bool :=
  match price1mAgo with
  | some p1 => decide (st.emergencyDrop ≤ (p1 - price) / p1)
  | none => false

/-- The per-cycle market inputs read by `MarketData.check_exit_signal`:
`self.current_price.get(code, 0)` (so an absent price is the value `0`),
`list(self.candles_5m.get(code, []))`, and `datetime.now()`. -/
structure ExitInput where
  currentPrice : ℚ
  candles5m : List Candle
  now : ℕ
  deriving DecidableEq, Repr

/-- `MarketData.check_exit_signal` of `src/advanced_scalping_bot.py`
lines 361-427, translated branch by branch.  The returned position is the
(possibly mutated) position dict: the trailing block may update
`peak_price`/`trailing_active`, and the fall-through path records
`price_1m_ago`.  Note that the local variable `peak_price` is read once at
the top, so the trailing drop is measured against the peak as of entry to
the call even when the dict entry was just updated. -/
def checkExitSignal (st : Strategy) (inp : ExitInput) (pos : Position) :
    Option ExitReason × Position :=
  if inp.currentPrice = 0 then (none, pos) else
  let price := inp.currentPrice
  let buy := pos.buyPrice
  let peak := pos.peakPrice
  let profitRate := (price - buy) / buy
  if st.baseProfit ≤ profitRate then (some .profitTarget, pos) else
  let pos := if st.trailingStart ≤ profitRate ∧ peak < price then
    { pos with peakPrice := price, trailingActive := true } else pos
  if st.trailingStart ≤ profitRate ∧ pos.trailingActive
      ∧ st.trailingOffset ≤ (peak - price) / peak then
    (some .trailingStop, pos) else
  let elapsed := tdSeconds (inp.now - pos.entryTime)
  if st.timeProfitHours * 3600 < elapsed ∧ st.timeProfitMin ≤ profitRate then
    (some .timeProfit, pos) else
  if profitRate ≤ -st.hardStop then (some .hardStop, pos) else
  if techStopHit st inp.candles5m price then (some .techStop, pos) else
  if st.timeLossHours * 3600 < elapsed ∧ profitRate ≤ st.timeLossMax then
    (some .timeLoss, pos) else
  if emergencyHit st pos.price1mAgo price then (some .emergency, pos) else
  (none, { pos with price1mAgo := some price })

/-- `MarketData.check_exit_signal` of `src/advanced_scalping_realtime.py`
lines 551-589.  This variant has no technical stop and no emergency exit,
checks the hard stop before the time-based exits, measures the trailing
drop against the freshly updated `position['peak_price']`, and never
records `price_1m_ago`. -/
def checkExitSignalRT (st : Strategy) (currentPrice : ℚ) (now : ℕ)
    (pos : Position) : Option ExitReason × Position :=
  if currentPrice = 0 then (none, pos) else
  let price := currentPrice
  let buy := pos.buyPrice
  let profitRate := (price - buy) / buy
  if st.baseProfit ≤ profitRate then (some .profitTarget, pos) else
  let pos := if st.trailingStart ≤ profitRate ∧ pos.peakPrice < price then
    { pos with peakPrice := price, trailingActive := true } else pos
  if st.trailingStart ≤ profitRate ∧ pos.trailingActive
      ∧ st.trailingOffset ≤ (pos.peakPrice - price) / pos.peakPrice then
    (some .trailingStop, pos) else
  if profitRate ≤ -st.hardStop then (some .hardStop, pos) else
  let elapsed := tdSeconds (now - pos.entryTime)
  if st.timeProfitHours * 3600 < elapsed ∧ st.timeProfitMin ≤ profitRate then
    (some .timeProfit, pos) else
  if st.timeLossHours * 3600 < elapsed ∧ profitRate ≤ st.timeLossMax then
    (some .timeLoss, pos) else
  (none, pos)

/-! ### The individual exit conditions of `check_exit_signal`, as standalone
predicates (`src/advanced_scalping_bot.py` lines 361-427).  Each is the
condition of one source branch, written over the position as it stands at
the start of the call, so that the control flow of `checkExitSignal` can be
compared against a first-match scan of these predicates. -/

/-- `profit_rate = (current_price - buy_price) / buy_price`. -/
def exitProfitRate (inp : ExitInput) (pos : Position) : ℚ :=
  (inp.currentPrice - pos.buyPrice) / pos.buyPrice

/-- Base profit target: `profit_rate >= BASE_PROFIT`. -/
def fireProfit (st : Strategy) (inp : ExitInput) (pos : Position) : Bool :=
  decide (st.baseProfit ≤ exitProfitRate inp pos)

/-- Trailing stop: inside the `profit_rate >= TRAILING_START` block,
`trailing_active` (either carried in or just set by the peak update) and
the drop from the peak read at the top of the call is at least
`TRAILING_OFFSET`. -/
def fireTrailing (st : Strategy) (inp : ExitInput) (pos : Position) : Bool :=
  decide (st.trailingStart ≤ exitProfitRate inp pos
    ∧ (pos.trailingActive = true ∨ pos.peakPrice < inp.currentPrice)
    ∧ st.trailingOffset ≤ (pos.peakPrice - inp.currentPrice) / pos.peakPrice)

/-- Time-based profit: `elapsed > TIME_PROFIT_HOURS*3600` and
`profit_rate >= TIME_PROFIT_MIN`. -/
def fireTimeProfit (st : Strategy) (inp : ExitInput) (pos : Position) : Bool :=
  decide (st.timeProfitHours * 3600 < tdSeconds (inp.now - pos.entryTime)
    ∧ st.timeProfitMin ≤ exitProfitRate inp pos)

/-- Hard stop: `profit_rate <= -HARD_STOP`. -/
def fireHard (st : Strategy) (inp : ExitInput) (pos : Position) : Bool :=
  decide (exitProfitRate inp pos ≤ -st.hardStop)

/-- Technical stop (position-independent). -/
def fireTech (st : Strategy) (inp : ExitInput) (_pos : Position) : Bool :=
  techStopHit st inp.candles5m inp.currentPrice

/-- Time-based loss: `elapsed > TIME_LOSS_HOURS*3600` and
`profit_rate <= TIME_LOSS_MAX`. -/
def fireTimeLoss (st : Strategy) (inp : ExitInput) (pos : Position) : Bool :=
  decide (st.timeLossHours * 3600 < tdSeconds (inp.now - pos.entryTime)
    ∧ exitProfitRate inp pos ≤ st.timeLossMax)

/-- Emergency exit against the recorded `price_1m_ago`. -/
def fireEmergency (st : Strategy) (inp : ExitInput) (pos : Position) : Bool :=
  emergencyHit st pos.price1mAgo inp.currentPrice

/-- First-match scan over a priority list of (condition, reason) pairs. -/
def firstMatch : List (Bool × ExitReason) → Option ExitReason
  | [] => none
  | (b, r) :: rest => if b then some r else firstMatch rest

set_option maxRecDepth 4000 in
/-- `checkExitSignal` is the first-match scan of its conditions in the
source order of `src/advanced_scalping_bot.py`: profit target, trailing
stop, time-based profit, hard stop, technical stop, time-based loss,
emergency exit. -/
theorem checkExit_order_bot (st : Strategy) (inp : ExitInput) (pos : Position) :
    (checkExitSignal st inp pos).1 =
      if inp.currentPrice = 0 then none else
      firstMatch
        [(fireProfit st inp pos, .profitTarget),
         (fireTrailing st inp pos, .trailingStop),
         (fireTimeProfit st inp pos, .timeProfit),
         (fireHard st inp pos, .hardStop),
         (fireTech st inp pos, .techStop),
         (fireTimeLoss st inp pos, .timeLoss),
         (fireEmergency st inp pos, .emergency)] := by
  by_cases h0 : inp.currentPrice = 0
  · simp [checkExitSignal, h0]
  · by_cases hs : st.trailingStart ≤ (inp.currentPrice - pos.buyPrice) / pos.buyPrice
    · by_cases hpk : pos.peakPrice < inp.currentPrice
      · simp [checkExitSignal, firstMatch, fireProfit, fireTrailing, fireTimeProfit,
          fireHard, fireTech, fireTimeLoss, fireEmergency, exitProfitRate, h0, hs, hpk]
        split_ifs <;> rfl
      · by_cases hact : pos.trailingActive
        · simp [checkExitSignal, firstMatch, fireProfit, fireTrailing, fireTimeProfit,
            fireHard, fireTech, fireTimeLoss, fireEmergency, exitProfitRate, h0, hs, hpk, hact]
          split_ifs <;> rfl
        · simp [checkExitSignal, firstMatch, fireProfit, fireTrailing, fireTimeProfit,
            fireHard, fireTech, fireTimeLoss, fireEmergency, exitProfitRate, h0, hs, hpk, hact]
          split_ifs <;> rfl
    · simp [checkExitSignal, firstMatch, fireProfit, fireTrailing, fireTimeProfit,
        fireHard, fireTech, fireTimeLoss, fireEmergency, exitProfitRate, h0, hs]
      split_ifs <;> rfl

/-- Trailing-stop condition of the realtime variant: the drop is measured
against the freshly updated `position['peak_price']`
(`src/advanced_scalping_realtime.py` lines 565-573). -/
def fireTrailingRT (st : Strategy) (price : ℚ) (pos : Position) : Bool :=
  let peak2 := if pos.peakPrice < price then price else pos.peakPrice
  decide (st.trailingStart ≤ (price - pos.buyPrice) / pos.buyPrice
    ∧ (pos.trailingActive = true ∨ pos.peakPrice < price)
    ∧ st.trailingOffset ≤ (peak2 - price) / peak2)

set_option maxRecDepth 4000 in
/-- `checkExitSignalRT` is the first-match scan of its conditions in the
source order of `src/advanced_scalping_realtime.py`: profit target,
trailing stop, hard stop, time-based profit, time-based loss. -/
theorem checkExit_order_rt (st : Strategy) (price : ℚ) (now : ℕ) (pos : Position) :
    (checkExitSignalRT st price now pos).1 =
      if price = 0 then none else
      firstMatch
        [(decide (st.baseProfit ≤ (price - pos.buyPrice) / pos.buyPrice), .profitTarget),
         (fireTrailingRT st price pos, .trailingStop),
         (decide ((price - pos.buyPrice) / pos.buyPrice ≤ -st.hardStop), .hardStop),
         (decide (st.timeProfitHours * 3600 < tdSeconds (now - pos.entryTime)
            ∧ st.timeProfitMin ≤ (price - pos.buyPrice) / pos.buyPrice), .timeProfit),
         (decide (st.timeLossHours * 3600 < tdSeconds (now - pos.entryTime)
            ∧ (price - pos.buyPrice) / pos.buyPrice ≤ st.timeLossMax), .timeLoss)] := by
  by_cases h0 : price = 0
  · simp [checkExitSignalRT, h0]
  · by_cases hs : st.trailingStart ≤ (price - pos.buyPrice) / pos.buyPrice
    · by_cases hpk : pos.peakPrice < price
      · simp [checkExitSignalRT, firstMatch, fireTrailingRT, h0, hs, hpk]
        split_ifs <;> rfl
      · by_cases hact : pos.trailingActive
        · simp [checkExitSignalRT, firstMatch, fireTrailingRT, h0, hs, hpk, hact]
          split_ifs <;> rfl
        · simp [checkExitSignalRT, firstMatch, fireTrailingRT, h0, hs, hpk, hact]
          split_ifs <;> rfl
    · simp [checkExitSignalRT, firstMatch, fireTrailingRT, h0, hs]
      split_ifs <;> rfl

/-- The exit evaluation in the priority order the claim states, modelled
from the claim's words for comparison with `checkExitSignal`: (1) profit
target, (2) peak/trailing update, (3) trailing stop, (4) hard stop
`price ≤ entry×(1−hardStopRate)`, (5) technical stop, (6) time-based
profit, (7) time-based loss, (8) emergency exit. -/
def specExitOrder (st : Strategy) (inp : ExitInput) (pos : Position) :
    Option ExitReason × Position :=
  if inp.currentPrice = 0 then (none, pos) else
  let price := inp.currentPrice
  let profitRate := (price - pos.buyPrice) / pos.buyPrice
  if st.baseProfit ≤ profitRate then (some .profitTarget, pos) else
  let pos := if pos.peakPrice < price then { pos with peakPrice := price } else pos
  let pos := if st.trailingStart ≤ profitRate then { pos with trailingActive := true } else pos
  if pos.trailingActive ∧ st.trailingOffset ≤ (pos.peakPrice - price) / pos.peakPrice then
    (some .trailingStop, pos) else
  if price ≤ pos.buyPrice * (1 - st.hardStop) then (some .hardStop, pos) else
  if techStopHit st inp.candles5m price then (some .techStop, pos) else
  let elapsed := tdSeconds (inp.now - pos.entryTime)
  if st.timeProfitHours * 3600 < elapsed ∧ st.timeProfitMin ≤ profitRate then
    (some .timeProfit, pos) else
  if st.timeLossHours * 3600 < elapsed ∧ profitRate ≤ st.timeLossMax then
    (some .timeLoss, pos) else
  if emergencyHit st pos.price1mAgo price then (some .emergency, pos) else
  (none, pos)

/-- A position entered at 10,000 (fresh: peak = entry, trailing inactive,
no recorded 1-minute price). -/
def posAt10000 : Position :=
  { buyPrice := 10000, qty := 1, entryTime := 0, peakPrice := 10000,
    trailingActive := false, price1mAgo := none }

/-- A 5-minute candle whose prices all sit at 10,200. -/
def candle10200 : Candle :=
  { time := 0, open_ := 10200, high := 10200, low := 10200, close := 10200, volume := 1 }

/-- Market input exercising the priority order: price 10,100 (return +1%),
two finished candles whose previous low is 10,200 (so the technical stop
condition holds), 2 hours and 1 second after entry (so the time-based
profit condition holds). -/
def orderProbeInp : ExitInput :=
  { currentPrice := 10100, candles5m := [candle10200, candle10200], now := 7201 }

/-- C1 (counterexample).  The claim's priority order — hard stop and
technical stop before the time-based exits — does not match the code: in a
state where both the technical-stop and the time-based-profit conditions
hold, `check_exit_signal` of `src/advanced_scalping_bot.py` fires the
time-based profit (its checks 4.1 come before its checks 4.2), while the
claim's order would fire the technical stop. -/
theorem exit_priority_counterexample :
    (checkExitSignal defaultStrategy orderProbeInp posAt10000).1
        = some ExitReason.timeProfit ∧
    (specExitOrder defaultStrategy orderProbeInp posAt10000).1
        = some ExitReason.techStop ∧
    (checkExitSignal defaultStrategy orderProbeInp posAt10000).1
        ≠ (specExitOrder defaultStrategy orderProbeInp posAt10000).1 := by
  refine ⟨?_, ?_, ?_⟩ <;>
    · norm_num [checkExitSignal, specExitOrder, techStopHit, emergencyHit, prevLow,
        tdSeconds, defaultStrategy, posAt10000, orderProbeInp, candle10200]
      try decide

/-- C1 (amended).  Each `check_exit_signal` evaluates its exit conditions
in a fixed priority order and the first matching condition is the one that
fires (hence at most one exit per position per call) — but the order is the
source order, not the claim's: the bot file checks profit target, trailing
stop, time-based profit, hard stop, technical stop, time-based loss,
emergency exit; the realtime file checks profit target, trailing stop,
hard stop, time-based profit, time-based loss. -/
theorem exit_priority_first_match :
    (∀ (st : Strategy) (inp : ExitInput) (pos : Position),
      (checkExitSignal st inp pos).1 =
        if inp.currentPrice = 0 then none else
        firstMatch
          [(fireProfit st inp pos, .profitTarget),
           (fireTrailing st inp pos, .trailingStop),
           (fireTimeProfit st inp pos, .timeProfit),
           (fireHard st inp pos, .hardStop),
           (fireTech st inp pos, .techStop),
           (fireTimeLoss st inp pos, .timeLoss),
           (fireEmergency st inp pos, .emergency)]) ∧
    (∀ (st : Strategy) (price : ℚ) (now : ℕ) (pos : Position),
      (checkExitSignalRT st price now pos).1 =
        if price = 0 then none else
        firstMatch
          [(decide (st.baseProfit ≤ (price - pos.buyPrice) / pos.buyPrice), .profitTarget),
           (fireTrailingRT st price pos, .trailingStop),
           (decide ((price - pos.buyPrice) / pos.buyPrice ≤ -st.hardStop), .hardStop),
           (decide (st.timeProfitHours * 3600 < tdSeconds (now - pos.entryTime)
              ∧ st.timeProfitMin ≤ (price - pos.buyPrice) / pos.buyPrice), .timeProfit),
           (decide (st.timeLossHours * 3600 < tdSeconds (now - pos.entryTime)
              ∧ (price - pos.buyPrice) / pos.buyPrice ≤ st.timeLossMax), .timeLoss)]) :=
  ⟨checkExit_order_bot, checkExit_order_rt⟩

/-- `defaultStrategy` with the base profit target moved out of reach
(100%), isolating the trailing-stop logic of the claimed scenario. -/
def noBaseProfitStrategy : Strategy := { defaultStrategy with baseProfit := 1 }

/-- The position state after evaluating the 11,000 tick under
`noBaseProfitStrategy`: peak raised to 11,000, trailing armed and
`price_1m_ago` recorded. -/
def armedPos : Position :=
  (checkExitSignal noBaseProfitStrategy ⟨11000, [], 0⟩ posAt10000).2

/-- C2 (counterexample).  In the claimed scenario — entry 10,000, price
rises to 11,000, then falls to 10,780 (or only to 10,781) — every
evaluation fires the profit target (`BASE_PROFIT` 3% is checked first and
the return is 10%, 7.8%, 7.81% respectively): no trailing-stop exit fires
at 10,780, and the evaluation at 10,781 does fire, contradicting both
halves of the claim. -/
theorem trailing_scenario_counterexample :
    (checkExitSignal defaultStrategy ⟨11000, [], 0⟩ posAt10000).1
        = some ExitReason.profitTarget ∧
    (checkExitSignal defaultStrategy ⟨10780, [], 0⟩
        (checkExitSignal defaultStrategy ⟨11000, [], 0⟩ posAt10000).2).1
        = some ExitReason.profitTarget ∧
    (checkExitSignal defaultStrategy ⟨10781, [], 0⟩
        (checkExitSignal defaultStrategy ⟨11000, [], 0⟩ posAt10000).2).1
        = some ExitReason.profitTarget := by
  refine ⟨?_, ?_, ?_⟩ <;>
    norm_num [checkExitSignal, techStopHit, emergencyHit, prevLow,
      tdSeconds, defaultStrategy, posAt10000]

/-- C2 (amended).  With the file's constants every evaluation of the
scenario exits at the profit target (the trailing branch is unreachable
because `TRAILING_START` 5% > `BASE_PROFIT` 3% and the profit target is
checked first).  With the profit target out of reach the trailing logic
behaves as claimed at 10,780 — the rise to 11,000 raises the peak and arms
trailing, and the 2% drop fires the trailing stop — while at 10,781 the
trailing stop indeed does not fire, but the evaluation still exits, via
the emergency check (one-minute drop 1.99% ≥ 1.5%). -/
theorem trailing_scenario_amended :
    (checkExitSignal defaultStrategy ⟨11000, [], 0⟩ posAt10000).1
        = some ExitReason.profitTarget ∧
    (checkExitSignal defaultStrategy ⟨10780, [], 0⟩ posAt10000).1
        = some ExitReason.profitTarget ∧
    (checkExitSignal defaultStrategy ⟨10781, [], 0⟩ posAt10000).1
        = some ExitReason.profitTarget ∧
    (checkExitSignal noBaseProfitStrategy ⟨11000, [], 0⟩ posAt10000).1 = none ∧
    armedPos.peakPrice = 11000 ∧
    armedPos.trailingActive = true ∧
    (checkExitSignal noBaseProfitStrategy ⟨10780, [], 0⟩ armedPos).1
        = some ExitReason.trailingStop ∧
    (checkExitSignal noBaseProfitStrategy ⟨10781, [], 0⟩ armedPos).1
        = some ExitReason.emergency := by
  refine ⟨?_, ?_, ?_, ?_, ?_, ?_, ?_, ?_⟩ <;>
    norm_num [checkExitSignal, techStopHit, emergencyHit, prevLow, tdSeconds,
      defaultStrategy, noBaseProfitStrategy, posAt10000, armedPos]

/-- C10.  With no known price for the symbol (`self.current_price.get(code, 0)`
yields `0`, whether the key is absent or holds `0`), both exit evaluators
return `(False, "")` immediately and leave the position untouched, so no
exit condition — the hard stop included — can fire until a tick arrives. -/
theorem no_price_no_exit :
    (∀ (st : Strategy) (candles : List Candle) (now : ℕ) (pos : Position),
      checkExitSignal st ⟨0, candles, now⟩ pos = (none, pos)) ∧
    (∀ (st : Strategy) (now : ℕ) (pos : Position),
      checkExitSignalRT st 0 now pos = (none, pos)) := by
  constructor <;> intros <;> simp [checkExitSignal, checkExitSignalRT]

/-! ### Strength calculator -/

/-- `StrengthCalculator.calculate` of `src/realtime_modules.py` lines
173-229.  The ask/bid volumes are the sums of the ten parsed
`ASKP_RSQN1..10` / `BIDP_RSQN1..10` resting quantities (here given as the
already-parsed lists of naturals); strength is 200 with no ask volume, 0
with ask volume but no bid volume, else `bid/ask*100`.  Only the returned
ratio is modelled; the history append does not affect it. -/
def strengthRatio (bidLevels askLevels : List ℕ) : ℚ :=
  let askVolume := askLevels.sum
  let bidVolume := bidLevels.sum
  if askVolume = 0 then 200
  else if bidVolume = 0 then 0
  else (bidVolume : ℚ) / (askVolume : ℚ) * 100

/-- `StrengthCalculator.calculate` of `src/advanced_scalping_realtime.py`
lines 219-264: same sums, no explicit zero-bid branch (the formula already
yields 0 there). -/
def strengthRatioRT (bidLevels askLevels : List ℕ) : ℚ :=
  let askVolume := askLevels.sum
  let bidVolume := bidLevels.sum
  if askVolume = 0 then 200
  else (bidVolume : ℚ) / (askVolume : ℚ) * 100

/-- C7.  In both implementations the strength ratio is `bid/ask×100` for
positive ask volume, 200 for zero ask volume, 0 for positive ask volume
and zero bid volume, and (for fixed positive ask volume) non-decreasing in
the bid volume. -/
theorem strength_ratio_spec (bids asks : List ℕ) :
    (asks.sum = 0 →
      strengthRatio bids asks = 200 ∧ strengthRatioRT bids asks = 200) ∧
    (asks.sum ≠ 0 →
      strengthRatio bids asks = (bids.sum : ℚ) / (asks.sum : ℚ) * 100 ∧
      strengthRatioRT bids asks = (bids.sum : ℚ) / (asks.sum : ℚ) * 100) ∧
    (asks.sum ≠ 0 → bids.sum = 0 →
      strengthRatio bids asks = 0 ∧ strengthRatioRT bids asks = 0) ∧
    (∀ bids' : List ℕ, asks.sum ≠ 0 → bids.sum ≤ bids'.sum →
      strengthRatio bids asks ≤ strengthRatio bids' asks ∧
      strengthRatioRT bids asks ≤ strengthRatioRT bids' asks) := by
  have key : ∀ b b' a : ℕ, a ≠ 0 → b ≤ b' →
      (b : ℚ) / (a : ℚ) * 100 ≤ (b' : ℚ) / (a : ℚ) * 100 := by
    intro b b' a ha hb
    have ha' : 0 < (a : ℚ) := by exact_mod_cast Nat.pos_of_ne_zero ha
    have hb' : (b : ℚ) ≤ (b' : ℚ) := by exact_mod_cast hb
    gcongr
  refine ⟨fun ha => ?_, fun ha => ?_, fun ha hb => ?_, fun bids' ha hle => ?_⟩
  · simp [strengthRatio, strengthRatioRT, ha]
  · by_cases hb : bids.sum = 0 <;>
      simp [strengthRatio, strengthRatioRT, ha, hb]
  · simp [strengthRatio, strengthRatioRT, ha, hb]
  · constructor
    · by_cases hb : bids.sum = 0
      · by_cases hb' : bids'.sum = 0
        · simp [strengthRatio, ha, hb, hb']
        · simp [strengthRatio, ha, hb, hb']
          apply div_nonneg <;> apply List.sum_nonneg <;> simp
      · have hb' : bids'.sum ≠ 0 := by
          intro h; exact hb (Nat.le_zero.mp (h ▸ hle))
        simp only [strengthRatio, ha, hb, hb', if_false, if_neg]
        exact key _ _ _ ha hle
    · simp only [strengthRatioRT, if_neg ha]
      exact key _ _ _ ha hle

/-- C7 (witness): concrete order books exercising every hypothesis of
`strength_ratio_spec`. -/
theorem strength_ratio_spec_witness :
    (strengthRatio [5] [] = 200 ∧ strengthRatioRT [5] [] = 200) ∧
    (strengthRatio [0, 0] [1, 2] = 0 ∧ strengthRatioRT [0, 0] [1, 2] = 0) ∧
    (strengthRatio [3] [2] ≤ strengthRatio [5] [2] ∧
      strengthRatioRT [3] [2] ≤ strengthRatioRT [5] [2]) :=
  ⟨(strength_ratio_spec [5] []).1 rfl,
   (strength_ratio_spec [0, 0] [1, 2]).2.2.1 (by decide) rfl,
   (strength_ratio_spec [3] [2]).2.2.2 [5] (by decide) (by decide)⟩

/-! ### Performance tracker (risk governor), bot variant -/

/-- One entry of `PerformanceTracker.trades`
(`src/advanced_scalping_bot.py` line 450): the trade dict passed to
`record_trade` plus the `time` recorded in the call. -/
structure TradeRec where
  code : ℕ
  profit : ℚ
  profitRate : ℚ
  reason : ExitReason
  time : ℕ
  deriving DecidableEq, Repr

/-- One value of the `daily_stats` defaultdict
(`src/advanced_scalping_bot.py` lines 441-443). -/
structure DayStats where
  trades : ℕ
  wins : ℕ
  losses : ℕ
  profit : ℚ
  deriving DecidableEq, Repr

/-- The defaultdict default `{'trades': 0, 'wins': 0, 'losses': 0, 'profit': 0}`. -/
def DayStats.zero : DayStats := ⟨0, 0, 0, 0⟩

/-- The date key of an instant: days are the `%Y-%m-%d` buckets of the
`ℕ`-seconds clock. -/
def dayOf (now : ℕ) : ℕ := now / 86400

/-- `self.daily_stats[date]` (defaultdict read). -/
def getDay (l : List (ℕ × DayStats)) (d : ℕ) : DayStats :=
  (l.lookup d).getD DayStats.zero

/-- Store back a day's stats; the freshest entry shadows older ones. -/
def setDay (l : List (ℕ × DayStats)) (d : ℕ) (s : DayStats) : List (ℕ × DayStats) :=
  (d, s) :: l

/-- `PerformanceTracker` state of `src/advanced_scalping_bot.py`
lines 436-446. -/
structure Tracker where
  startCapital : ℚ
  currentCapital : ℚ
  peakCapital : ℚ
  trades : List TradeRec
  dailyStats : List (ℕ × DayStats)
  consecutiveLosses : ℕ
  lastLossTime : Option ℕ
  deriving DecidableEq, Repr

/-- `PerformanceTracker.__init__(start_capital)`. -/
def Tracker.init (startCapital : ℚ) : Tracker :=
  ⟨startCapital, startCapital, startCapital, [], [], 0, none⟩

/-- `PerformanceTracker.record_trade` of `src/advanced_scalping_bot.py`
lines 448-474; `now` is the `datetime.now()` read during the call (used
for the trade's `time`, the date key and `last_loss_time`).  A trade with
`profit > 0` is a win; any other trade — a zero-profit one included — takes
the loss branch. -/
def recordTrade (t : Tracker) (code : ℕ) (profit profitRate : ℚ)
    (reason : ExitReason) (now : ℕ) : Tracker :=
  let day := dayOf now
  let s := getDay t.dailyStats day
  let s := { s with trades := s.trades + 1, profit := s.profit + profit }
  let currentCapital := t.currentCapital + profit
  let peakCapital :=
    if t.peakCapital < currentCapital then currentCapital else t.peakCapital
  if 0 < profit then
    { t with trades := t.trades ++ [⟨code, profit, profitRate, reason, now⟩],
             dailyStats := setDay t.dailyStats day { s with wins := s.wins + 1 },
             consecutiveLosses := 0,
             currentCapital := currentCapital, peakCapital := peakCapital }
  else
    { t with trades := t.trades ++ [⟨code, profit, profitRate, reason, now⟩],
             dailyStats := setDay t.dailyStats day { s with losses := s.losses + 1 },
             consecutiveLosses := t.consecutiveLosses + 1,
             lastLossTime := some now,
             currentCapital := currentCapital, peakCapital := peakCapital }

/-- `PerformanceTracker.get_win_rate` (lines 476-481): 0 with no trades,
else wins (strictly positive profit) over total trades. -/
def getWinRate (t : Tracker) : ℚ :=
  if t.trades = [] then 0
  else (t.trades.countP (fun r => decide (0 < r.profit)) : ℚ) / (t.trades.length : ℚ)

/-- `PerformanceTracker.get_mdd` (lines 483-487). -/
def getMdd (t : Tracker) : ℚ :=
  if t.peakCapital = 0 then 0
  else (t.peakCapital - t.currentCapital) / t.peakCapital

/-- The consecutive-loss ground of the bot's `should_stop_trading`
(lines 491-497): at least `CONSECUTIVE_LOSS` consecutive losses, a
recorded `last_loss_time`, and `(now - last_loss_time).seconds` — note:
`.seconds`, the within-day component — still below `COOLDOWN_SECONDS`. -/
def consecLossStop (st : Strategy) (t : Tracker) (now : ℕ) : Bool :=
  decide (st.consecutiveLoss ≤ t.consecutiveLosses) &&
    (match t.lastLossTime with
     | some llt => decide (tdSeconds (now - llt) < st.cooldownSeconds)
     | none => false)

/-- `PerformanceTracker.should_stop_trading` of
`src/advanced_scalping_bot.py` lines 490-519: consecutive-loss cooldown,
daily loss limit, rolling win rate (with at least 10 trades), and
drawdown, short-circuiting in that order. -/
def shouldStopTrading (st : Strategy) (t : Tracker) (now : ℕ) : Bool :=
  consecLossStop st t now ||
  decide ((getDay t.dailyStats (dayOf now)).profit < -(t.startCapital * st.dailyLossLimit)) ||
  (decide (10 ≤ t.trades.length) && decide (getWinRate t < st.minWinRate)) ||
  decide (st.maxDrawdown < getMdd t)

/-- C9.  `record_trade` treats a zero-profit trade as a loss: the
consecutive-loss counter is incremented, `last_loss_time` is set to the
record time, the day's loss count grows by one while its win count does
not, and the trade enters the win-rate denominator (the trades list) but
not its numerator. -/
theorem zero_profit_counted_as_loss (t : Tracker) (code : ℕ) (rate : ℚ)
    (reason : ExitReason) (now : ℕ) :
    (recordTrade t code 0 rate reason now).consecutiveLosses
        = t.consecutiveLosses + 1 ∧
    (recordTrade t code 0 rate reason now).lastLossTime = some now ∧
    (getDay (recordTrade t code 0 rate reason now).dailyStats (dayOf now)).losses
        = (getDay t.dailyStats (dayOf now)).losses + 1 ∧
    (getDay (recordTrade t code 0 rate reason now).dailyStats (dayOf now)).wins
        = (getDay t.dailyStats (dayOf now)).wins ∧
    (recordTrade t code 0 rate reason now).trades.length = t.trades.length + 1 ∧
    (recordTrade t code 0 rate reason now).trades.countP (fun r => decide (0 < r.profit))
        = t.trades.countP (fun r => decide (0 < r.profit)) := by
  refine ⟨?_, ?_, ?_, ?_, ?_, ?_⟩ <;>
    simp [recordTrade, getDay, setDay, List.countP_append]

/-! ### Performance tracker, v3 variant (`src/scalping_system_v3.py`) -/

/-- One entry of the v3 `PerformanceTracker.trades`
(`src/scalping_system_v3.py` lines 243-246). -/
structure TradeRecV3 where
  code : ℕ
  profitLoss : ℚ
  profitRate : ℚ
  amount : ℚ
  time : ℕ
  deriving DecidableEq, Repr

/-- One value of the v3 `daily_stats` defaultdict (lines 224-230). -/
structure DayStatsV3 where
  trades : ℕ
  wins : ℕ
  losses : ℕ
  profit : ℚ
  volume : ℚ
  deriving DecidableEq, Repr

/-- The v3 defaultdict default. -/
def DayStatsV3.zero : DayStatsV3 := ⟨0, 0, 0, 0, 0⟩

/-- `self.daily_stats[date]` for the v3 tracker. -/
def getDayV3 (l : List (ℕ × DayStatsV3)) (d : ℕ) : DayStatsV3 :=
  (l.lookup d).getD DayStatsV3.zero

/-- v3 `PerformanceTracker` state (`src/scalping_system_v3.py` lines
222-239).  The five `RISK_MANAGEMENT` configuration values it is checked
against (`consecutive_loss_limit`, `consecutive_loss_cooldown`,
`daily_loss_limit`, `min_win_rate`, `max_drawdown`) are carried by the
same `Strategy` fields as the bot's constants; the configured numbers are
identical (3, 3600, 0.05, 0.60, 0.10). -/
structure TrackerV3 where
  startCapital : ℚ
  currentCapital : ℚ
  peakCapital : ℚ
  currentDrawdown : ℚ
  maxDrawdown : ℚ
  trades : List TradeRecV3
  dailyStats : List (ℕ × DayStatsV3)
  consecutiveLosses : ℕ
  lastLossTime : Option ℕ
  deriving DecidableEq, Repr

/-- v3 `PerformanceTracker.record_trade` (lines 241-277).  Like the bot's:
zero profit takes the loss branch.  The drawdown update divides by
`peak_capital`; with the v3 initial capital of 0 the Python code would
raise `ZeroDivisionError` there, while `ℚ` yields 0 — the claims proved
here never evaluate that corner. -/
def recordTradeV3 (t : TrackerV3) (code : ℕ) (profitLoss profitRate amount : ℚ)
    (now : ℕ) : TrackerV3 :=
  let day := dayOf now
  let s := getDayV3 t.dailyStats day
  let s := { s with trades := s.trades + 1, volume := s.volume + amount,
                    profit := s.profit + profitLoss }
  let currentCapital := t.currentCapital + profitLoss
  let peakCapital :=
    if t.peakCapital < currentCapital then currentCapital else t.peakCapital
  let currentDrawdown := (peakCapital - currentCapital) / peakCapital
  let maxDrawdown := max t.maxDrawdown currentDrawdown
  if 0 < profitLoss then
    { t with trades := t.trades ++ [⟨code, profitLoss, profitRate, amount, now⟩],
             dailyStats := (day, { s with wins := s.wins + 1 }) :: t.dailyStats,
             consecutiveLosses := 0,
             currentCapital := currentCapital, peakCapital := peakCapital,
             currentDrawdown := currentDrawdown, maxDrawdown := maxDrawdown }
  else
    { t with trades := t.trades ++ [⟨code, profitLoss, profitRate, amount, now⟩],
             dailyStats := (day, { s with losses := s.losses + 1 }) :: t.dailyStats,
             consecutiveLosses := t.consecutiveLosses + 1,
             lastLossTime := some now,
             currentCapital := currentCapital, peakCapital := peakCapital,
             currentDrawdown := currentDrawdown, maxDrawdown := maxDrawdown }

/-- v3 `PerformanceTracker.get_win_rate` (lines 279-286). -/
def getWinRateV3 (t : TrackerV3) : ℚ :=
  if t.trades = [] then 0
  else (t.trades.countP (fun r => decide (0 < r.profitLoss)) : ℚ) / (t.trades.length : ℚ)

/-- The consecutive-loss ground of the v3 `should_stop_trading`
(lines 322-330): this variant measures the elapsed time with
`.total_seconds()`, not with the within-day `.seconds`. -/
def consecLossStopV3 (cfg : Strategy) (t : TrackerV3) (now : ℕ) : Bool :=
  decide (cfg.consecutiveLoss ≤ t.consecutiveLosses) &&
    (match t.lastLossTime with
     | some llt => decide (now - llt < cfg.cooldownSeconds)
     | none => false)

/-- v3 `PerformanceTracker.should_stop_trading` (lines 321-349):
consecutive-loss cooldown, daily loss limit, win rate over at least 10
trades, and the running `max_drawdown`, short-circuiting in that order. -/
def shouldStopTradingV3 (cfg : Strategy) (t : TrackerV3) (now : ℕ) : Bool :=
  consecLossStopV3 cfg t now ||
  decide ((getDayV3 t.dailyStats (dayOf now)).profit < -(t.startCapital * cfg.dailyLossLimit)) ||
  (decide (10 ≤ t.trades.length) && decide (getWinRateV3 t < cfg.minWinRate)) ||
  decide (cfg.maxDrawdown < t.maxDrawdown)

/-- The arguments of one bot `record_trade` call. -/
structure TradeIn where
  code : ℕ
  profit : ℚ
  profitRate : ℚ
  reason : ExitReason
  now : ℕ
  deriving DecidableEq, Repr

/-- A sequence of bot `record_trade` calls. -/
def recordTrades (t : Tracker) (l : List TradeIn) : Tracker :=
  l.foldl (fun acc i => recordTrade acc i.code i.profit i.profitRate i.reason i.now) t

/-- Folding a non-empty run of non-winning trades adds its length to the
consecutive-loss counter and records the last trade's time as
`last_loss_time`. -/
theorem recordTrades_losses (l : List TradeIn) :
    ∀ (t : Tracker) (last : TradeIn), (∀ i ∈ l, i.profit ≤ 0) →
      l.getLast? = some last →
      (recordTrades t l).consecutiveLosses = t.consecutiveLosses + l.length ∧
      (recordTrades t l).lastLossTime = some last.now := by
  induction l with
  | nil => intro t last _ h; simp at h
  | cons a l ih =>
    intro t last hloss hlast
    have ha : ¬ 0 < a.profit := not_lt.mpr (hloss a (by simp))
    cases l with
    | nil =>
      simp only [List.getLast?_singleton, Option.some.injEq] at hlast
      subst hlast
      simp [recordTrades, recordTrade, ha]
    | cons b l' =>
      have hlast' : (b :: l').getLast? = some last := by
        rwa [List.getLast?_cons_cons] at hlast
      have hloss' : ∀ i ∈ b :: l', i.profit ≤ 0 := fun i hi => hloss i (by simp [hi])
      have step : recordTrades t (a :: b :: l') =
          recordTrades (recordTrade t a.code a.profit a.profitRate a.reason a.now) (b :: l') := by
        simp [recordTrades]
      obtain ⟨hc, hl⟩ := ih (recordTrade t a.code a.profit a.profitRate a.reason a.now)
        last hloss' hlast'
      refine ⟨?_, ?_⟩
      · rw [step, hc]
        simp [recordTrade, ha]
        omega
      · rw [step, hl]

/-- C6 (amended).  (1) After `record_trade` calls ending in a run of
exactly `consecutiveLossLimit` non-winning trades, the bot's
`shouldStopTrading()` is true at every evaluation within `cooldownSeconds`
of the last loss.  (2) For the bot tracker the consecutive-loss ground
stops forcing true only while the *within-day* elapsed time
`(now - lastLoss).seconds` is at least the cooldown — because it uses
`timedelta.seconds`, the ground fires again when the elapsed time modulo
86400 drops below the cooldown (e.g. exactly one day after the loss, see
the counterexample).  (3) The v3 tracker uses `.total_seconds()`, so its
consecutive-loss ground never again forces true once `cooldownSeconds`
have elapsed.  (4) A v3 `record_trade` of a non-winning trade feeds that
ground exactly as the claim describes. -/
theorem consecutive_loss_cooldown_amended :
    (∀ (st : Strategy) (t : Tracker) (pre losses : List TradeIn) (last : TradeIn) (now : ℕ),
      losses.length = st.consecutiveLoss →
      (∀ i ∈ losses, i.profit ≤ 0) →
      losses.getLast? = some last →
      last.now ≤ now →
      now - last.now < st.cooldownSeconds →
      st.cooldownSeconds ≤ 86400 →
      shouldStopTrading st (recordTrades t (pre ++ losses)) now = true) ∧
    (∀ (st : Strategy) (t : Tracker) (llt now : ℕ),
      t.lastLossTime = some llt →
      st.cooldownSeconds ≤ tdSeconds (now - llt) →
      consecLossStop st t now = false) ∧
    (∀ (cfg : Strategy) (t : TrackerV3) (llt now : ℕ),
      t.lastLossTime = some llt →
      cfg.cooldownSeconds ≤ now - llt →
      consecLossStopV3 cfg t now = false) ∧
    (∀ (t : TrackerV3) (code : ℕ) (pl rate amount : ℚ) (now : ℕ), pl ≤ 0 →
      (recordTradeV3 t code pl rate amount now).consecutiveLosses
          = t.consecutiveLosses + 1 ∧
      (recordTradeV3 t code pl rate amount now).lastLossTime = some now) := by
  refine ⟨?_, ?_, ?_, ?_⟩
  · intro st t pre losses last now hlen hloss hlast hle hwin hcool
    obtain ⟨hc, hl⟩ := recordTrades_losses losses (recordTrades t pre) last hloss hlast
    have happ : recordTrades t (pre ++ losses) = recordTrades (recordTrades t pre) losses := by
      simp [recordTrades, List.foldl_append]
    have hmod : tdSeconds (now - last.now) = now - last.now :=
      Nat.mod_eq_of_lt (lt_of_lt_of_le hwin hcool)
    have hground : consecLossStop st (recordTrades t (pre ++ losses)) now = true := by
      rw [happ]
      simp only [consecLossStop, hc, hl, hmod, hlen]
      simp [hwin, Nat.le_add_left]
    simp [shouldStopTrading, hground]
  · intro st t llt now hllt hcool
    simp [consecLossStop, hllt, not_lt.mpr hcool]
  · intro cfg t llt now hllt hcool
    simp [consecLossStopV3, hllt, not_lt.mpr hcool]
  · intro t code pl rate amount now hpl
    have : ¬ 0 < pl := not_lt.mpr hpl
    constructor <;> simp [recordTradeV3, this]

/-- A losing bot `record_trade` call (loses 1 unit) at time `k`. -/
def lossIn (k : ℕ) : TradeIn := ⟨1, -1, -(1 / 10000), .hardStop, k⟩

/-- The bot tracker after exactly three consecutive losses at times 0, 10
and 20 seconds, starting from a fresh 1,000,000 capital. -/
def lossyTracker : Tracker :=
  recordTrades (Tracker.init 1000000) [lossIn 0, lossIn 10, lossIn 20]

/-- C6 (counterexample).  One full day after the last loss — 86,400
seconds, far beyond the 3,600-second cooldown — the bot's consecutive-loss
ground fires again (and `should_stop_trading` with it), because
`(now - last_loss_time).seconds` wraps around at a day: the claim that the
ground no longer forces true once `cooldownSeconds` have elapsed fails. -/
theorem cooldown_day_wrap_counterexample :
    consecLossStop defaultStrategy lossyTracker 86420 = true ∧
    shouldStopTrading defaultStrategy lossyTracker 86420 = true ∧
    defaultStrategy.cooldownSeconds ≤ 86420 - 20 := by
  refine ⟨?_, ?_, by decide⟩ <;>
    norm_num [consecLossStop, shouldStopTrading, lossyTracker, recordTrades,
      recordTrade, lossIn, Tracker.init, tdSeconds, defaultStrategy]

/-- A bot tracker state carrying three consecutive losses, the last at
time 0. -/
def stubTracker : Tracker :=
  { startCapital := 1000000, currentCapital := 1000000, peakCapital := 1000000,
    trades := [], dailyStats := [], consecutiveLosses := 3, lastLossTime := some 0 }

/-- A v3 tracker state carrying three consecutive losses, the last at
time 0. -/
def stubTrackerV3 : TrackerV3 :=
  { startCapital := 0, currentCapital := 0, peakCapital := 0,
    currentDrawdown := 0, maxDrawdown := 0,
    trades := [], dailyStats := [], consecutiveLosses := 3, lastLossTime := some 0 }

/-- C6 (witness): the amended theorem applied at concrete inputs — three
recorded losses stop trading 80 seconds after the last one; both
consecutive-loss grounds are released exactly at the 3,600-second
cooldown; a zero-profit v3 trade increments the loss run. -/
theorem consecutive_loss_cooldown_witness :
    shouldStopTrading defaultStrategy
        (recordTrades (Tracker.init 1000000) ([] ++ [lossIn 0, lossIn 10, lossIn 20])) 100
        = true ∧
    consecLossStop defaultStrategy stubTracker 3600 = false ∧
    consecLossStopV3 defaultStrategy stubTrackerV3 3600 = false ∧
    ((recordTradeV3 stubTrackerV3 1 0 0 0 50).consecutiveLosses
        = stubTrackerV3.consecutiveLosses + 1 ∧
      (recordTradeV3 stubTrackerV3 1 0 0 0 50).lastLossTime = some 50) :=
  ⟨consecutive_loss_cooldown_amended.1 defaultStrategy (Tracker.init 1000000) []
      [lossIn 0, lossIn 10, lossIn 20] (lossIn 20) 100 rfl
      (by intro i hi; fin_cases hi <;> norm_num [lossIn]) rfl
      (by norm_num [lossIn]) (by norm_num [lossIn, defaultStrategy]) (by decide),
   consecutive_loss_cooldown_amended.2.1 defaultStrategy stubTracker 0 3600
      rfl (by decide),
   consecutive_loss_cooldown_amended.2.2.1 defaultStrategy stubTrackerV3 0 3600
      rfl (by decide),
   consecutive_loss_cooldown_amended.2.2.2 stubTrackerV3 1 0 0 0 50 le_rfl⟩

/-! ### Websocket subscription bookkeeping (feed reconnector) -/

/-- Subscription state of a websocket client: the stored
`self.subscriptions` list of `(tr_id, tr_key)` pairs plus the log of
subscribe frames pushed through `await self.ws.send(...)`, modelled for a
connected socket (`self.ws` set; with no socket `subscribe` returns
without doing anything). -/
structure WSState where
  subscriptions : List (ℕ × ℕ)
  sent : List (ℕ × ℕ)
  deriving DecidableEq, Repr

/-- `ReconnectableWebSocket.subscribe` of `src/realtime_modules.py` lines
349-380: send the subscribe frame, then append `(tr_id, tr_key)` to the
stored list only if it is not already registered. -/
def rwsSubscribe (s : WSState) (trId trKey : ℕ) : WSState :=
  let s := { s with sent := s.sent ++ [(trId, trKey)] }
  if (trId, trKey) ∈ s.subscriptions then s
  else { s with subscriptions := s.subscriptions ++ [(trId, trKey)] }

/-- `ReconnectableWebSocket.resubscribe` (lines 406-412): after a
reconnect, re-issue `subscribe` for every stored pair, in order (the 0.1 s
inter-subscribe sleep does not affect the state). -/
def rwsResubscribe (s : WSState) : WSState :=
  s.subscriptions.foldl (fun acc p => rwsSubscribe acc p.1 p.2) s

/-- `WebSocketClient.subscribe` of `src/advanced_scalping_realtime.py`
lines 340-370: send the frame and append `(tr_id, tr_key)`
unconditionally — no membership check. -/
def wcSubscribe (s : WSState) (trId trKey : ℕ) : WSState :=
  { s with sent := s.sent ++ [(trId, trKey)],
           subscriptions := s.subscriptions ++ [(trId, trKey)] }

/-- Folding `subscribe` over pairs that are all already registered sends
each of them and leaves the stored list untouched. -/
theorem rwsSubscribe_foldl (l : List (ℕ × ℕ)) :
    ∀ s : WSState, (∀ p ∈ l, p ∈ s.subscriptions) →
      l.foldl (fun acc p => rwsSubscribe acc p.1 p.2) s
        = { subscriptions := s.subscriptions, sent := s.sent ++ l } := by
  induction l with
  | nil => intro s _; simp
  | cons p l ih =>
    intro s hmem
    have hp : p ∈ s.subscriptions := hmem p (by simp)
    have step : rwsSubscribe s p.1 p.2
        = { subscriptions := s.subscriptions, sent := s.sent ++ [p] } := by
      simp [rwsSubscribe, hp]
    rw [List.foldl_cons, step,
      ih { subscriptions := s.subscriptions, sent := s.sent ++ [p] }
        (fun q hq => hmem q (by simp [hq]))]
    simp

/-- In a duplicate-free list every member occurs exactly once. -/
theorem count_eq_one_of_nodup {α : Type _} [BEq α] [LawfulBEq α] {l : List α}
    {a : α} (hnd : l.Nodup) (ha : a ∈ l) : l.count a = 1 := by
  induction l with
  | nil => simp at ha
  | cons b t ih =>
    rw [List.count_cons]
    rcases List.mem_cons.mp ha with rfl | hat
    · have hnotmem : a ∉ t := (List.nodup_cons.mp hnd).1
      simp [List.count_eq_zero.mpr hnotmem]
    · have hne : b ≠ a := by
        rintro rfl; exact (List.nodup_cons.mp hnd).1 hat
      have hc := ih (List.nodup_cons.mp hnd).2 hat
      simp [hc, beq_iff_eq, hne, Ne.symm hne]

/-- C8 (amended, for `ReconnectableWebSocket` of `realtime_modules.py`).
(1) `resubscribe` re-issues a subscribe frame for every registered
`(channel, key)` pair in order and leaves the stored list unchanged;
(2) with a duplicate-free list every registered pair is re-issued exactly
once; (3) subscribing to an already registered pair leaves the stored list
unchanged; (4) `subscribe` preserves duplicate-freedom.  (The
`WebSocketClient` copy in `advanced_scalping_realtime.py` violates the
claim — see the counterexample.) -/
theorem resubscribe_exactly_once :
    (∀ s : WSState,
      (rwsResubscribe s).subscriptions = s.subscriptions ∧
      (rwsResubscribe s).sent = s.sent ++ s.subscriptions) ∧
    (∀ s : WSState, s.subscriptions.Nodup →
      ∀ p ∈ s.subscriptions, s.subscriptions.count p = 1) ∧
    (∀ (s : WSState) (trId trKey : ℕ), (trId, trKey) ∈ s.subscriptions →
      (rwsSubscribe s trId trKey).subscriptions = s.subscriptions) ∧
    (∀ (s : WSState) (trId trKey : ℕ), s.subscriptions.Nodup →
      (rwsSubscribe s trId trKey).subscriptions.Nodup) := by
  refine ⟨fun s => ?_, fun s hnd p hp => ?_, fun s trId trKey h => ?_, fun s trId trKey hnd => ?_⟩
  · rw [rwsResubscribe, rwsSubscribe_foldl s.subscriptions s (fun p hp => hp)]
    exact ⟨rfl, rfl⟩
  · exact count_eq_one_of_nodup hnd hp
  · simp [rwsSubscribe, h]
  · by_cases h : (trId, trKey) ∈ s.subscriptions
    · simpa [rwsSubscribe, h] using hnd
    · simp [rwsSubscribe, h, List.nodup_append, hnd]

/-- The spec scenario's three active subscriptions. -/
def threeSubs : WSState := ⟨[(1, 10), (1, 20), (2, 30)], []⟩

/-- C8 (witness): with three active subscriptions, `resubscribe` sends
exactly those three frames and keeps the stored list; each is registered
once; re-subscribing an existing pair is a no-op on the list; subscribing
a new pair keeps the list duplicate-free. -/
theorem resubscribe_exactly_once_witness :
    (rwsResubscribe threeSubs).sent = threeSubs.sent ++ threeSubs.subscriptions ∧
    threeSubs.subscriptions.count (1, 10) = 1 ∧
    (rwsSubscribe threeSubs 1 10).subscriptions = threeSubs.subscriptions ∧
    (rwsSubscribe threeSubs 7 70).subscriptions.Nodup :=
  ⟨(resubscribe_exactly_once.1 threeSubs).2,
   resubscribe_exactly_once.2.1 threeSubs (by decide) (1, 10) (by decide),
   resubscribe_exactly_once.2.2.1 threeSubs 1 10 (by decide),
   resubscribe_exactly_once.2.2.2 threeSubs 7 70 (by decide)⟩

/-- C8 (counterexample).  `WebSocketClient.subscribe` of
`src/advanced_scalping_realtime.py` appends unconditionally: subscribing
to a pair that is already registered does add a second entry, leaving a
duplicated subscription list. -/
theorem duplicate_subscription_counterexample :
    (1, 2) ∈ (wcSubscribe ⟨[], []⟩ 1 2).subscriptions ∧
    (wcSubscribe (wcSubscribe ⟨[], []⟩ 1 2) 1 2).subscriptions = [(1, 2), (1, 2)] ∧
    ¬ (wcSubscribe (wcSubscribe ⟨[], []⟩ 1 2) 1 2).subscriptions.Nodup := by
  refine ⟨by decide, rfl, by decide⟩

/-! ### Candle aggregator -/

/-- A trade tick fed to `CandleBuilder.add_tick`. -/
structure Tick where
  price : ℚ
  volume : ℕ
  ts : ℕ
  deriving DecidableEq, Repr

/-- `deque(maxlen=200).append`: drop the oldest element beyond capacity. -/
def pushBounded (l : List Candle) (c : Candle) : List Candle :=
  if l.length < 200 then l ++ [c] else l.drop 1 ++ [c]

/-- The bucket start computed by `add_tick`:
`timestamp.replace(minute=(minute // timeframe) * timeframe, second=0,
microsecond=0)`.  On the `ℕ`-seconds clock this is flooring to multiples
of `timeframe*60` seconds, which coincides with the source computation
whenever `timeframe` divides 60 — as the only used value, 5, does. -/
def bucketStart (tfMinutes ts : ℕ) : ℕ := ts / (tfMinutes * 60) * (tfMinutes * 60)

/-- `CandleBuilder` state (`src/realtime_modules.py` lines 42-47):
per-code finished candles (`self.candles`), per-code open candle
(`self.current_candles`) and per-code open-bucket start
(`self.candle_start_times`). -/
structure BuilderState where
  timeframe : ℕ
  candles : List (ℕ × List Candle)
  currentCandles : List (ℕ × Candle)
  candleStartTimes : List (ℕ × ℕ)
  deriving DecidableEq, Repr

/-- `CandleBuilder(timeframe_minutes)`. -/
def BuilderState.init (tf : ℕ) : BuilderState := ⟨tf, [], [], []⟩

/-- The finished-candle series of a code (empty when the code is new). -/
def getSeries (b : BuilderState) (code : ℕ) : List Candle :=
  (b.candles.lookup code).getD []

/-- `CandleBuilder.add_tick` of `src/realtime_modules.py` lines 52-115.
(The copy in `src/advanced_scalping_realtime.py` lines 140-188 differs
only in reading `self.candle_start_times[code]` instead of `.get(code)`;
the keys coincide, so the behaviour is the same.)  If the code has no open
candle or its bucket differs from the tick's, the open candle (if any) is
finalized, pushed on the bounded series and returned, and a fresh candle
opens at the tick; otherwise the open candle absorbs the tick. -/
def addTick (b : BuilderState) (code : ℕ) (price : ℚ) (volume : ℕ) (ts : ℕ) :
    Option Candle × BuilderState :=
  let candleStart := bucketStart b.timeframe ts
  if (b.currentCandles.lookup code).isNone
      || (b.candleStartTimes.lookup code != some candleStart) then
    let completed := b.currentCandles.lookup code
    let candles := match completed with
      | some c => (code, pushBounded (getSeries b code) c) :: b.candles
      | none => b.candles
    (completed,
      { b with candles := candles,
               currentCandles :=
                 (code, ⟨candleStart, price, price, price, price, volume⟩) :: b.currentCandles,
               candleStartTimes := (code, candleStart) :: b.candleStartTimes })
  else
    match b.currentCandles.lookup code with
    | some c =>
        (none, { b with currentCandles :=
          (code, { c with high := max c.high price, low := min c.low price,
                          close := price, volume := c.volume + volume }) :: b.currentCandles })
    | none => (none, b)

/-- Feed a list of ticks for one code, collecting the per-tick returns. -/
def addTicks (b : BuilderState) (code : ℕ) : List Tick → List (Option Candle) × BuilderState
  | [] => ([], b)
  | t :: rest =>
    let r := addTick b code t.price t.volume t.ts
    let rs := addTicks r.2 code rest
    (r.1 :: rs.1, rs.2)

/-- The open-candle update of the in-bucket branch of `add_tick`. -/
def updTick (c : Candle) (t : Tick) : Candle :=
  { c with high := max c.high t.price, low := min c.low t.price,
           close := t.price, volume := c.volume + t.volume }

/-- The OHLC invariant of a candle. -/
def candleWF (c : Candle) : Prop :=
  c.low ≤ c.open_ ∧ c.open_ ≤ c.high ∧ c.low ≤ c.close ∧ c.close ≤ c.high

/-- Absorbing a tick preserves the OHLC invariant. -/
theorem updTick_wf {c : Candle} (t : Tick) (h : candleWF c) : candleWF (updTick c t) := by
  obtain ⟨h1, h2, _, _⟩ := h
  simp only [candleWF, updTick]
  exact ⟨le_trans (min_le_left _ _) h1, le_trans h2 (le_max_left _ _),
    min_le_right _ _, le_max_right _ _⟩

/-- Absorbing a run of ticks preserves the OHLC invariant, keeps `open`,
`time` untouched, adds the tick volumes, and ends at the last price. -/
theorem updTick_foldl (l : List Tick) : ∀ c : Candle,
    (l.foldl updTick c).open_ = c.open_ ∧
    (l.foldl updTick c).time = c.time ∧
    (l.foldl updTick c).volume = c.volume + (l.map Tick.volume).sum ∧
    (candleWF c → candleWF (l.foldl updTick c)) ∧
    (∀ h : l ≠ [], (l.foldl updTick c).close = (l.getLast h).price) := by
  induction l with
  | nil => intro c; simp
  | cons t rest ih =>
    intro c
    obtain ⟨h1, h2, h3, h4, h5⟩ := ih (updTick c t)
    refine ⟨?_, ?_, ?_, ?_, ?_⟩
    · simpa [updTick] using h1
    · simpa [updTick] using h2
    · rw [List.foldl_cons, h3]
      simp [updTick]
      omega
    · intro hwf
      rw [List.foldl_cons]
      exact h4 (updTick_wf t hwf)
    · intro hne
      rw [List.foldl_cons]
      cases rest with
      | nil => simp [updTick]
      | cons u rest' =>
        rw [h5 (by simp)]
        simp [List.getLast_cons]

/-- Processing in-bucket ticks of an open candle returns no finalized
candle, folds the ticks into the open candle, and leaves everything else
(start time, finished series, timeframe) untouched. -/
theorem addTicks_inbucket (l : List Tick) : ∀ (b : BuilderState) (code : ℕ) (c : Candle),
    b.currentCandles.lookup code = some c →
    b.candleStartTimes.lookup code = some c.time →
    (∀ t ∈ l, bucketStart b.timeframe t.ts = c.time) →
    (addTicks b code l).1 = List.replicate l.length none ∧
    (addTicks b code l).2.currentCandles.lookup code = some (l.foldl updTick c) ∧
    (addTicks b code l).2.candleStartTimes.lookup code = some c.time ∧
    (addTicks b code l).2.candles = b.candles ∧
    (addTicks b code l).2.timeframe = b.timeframe := by
  induction l with
  | nil => intro b code c hcur hst _; simp [addTicks, hcur, hst]
  | cons t rest ih =>
    intro b code c hcur hst hin
    have hb : bucketStart b.timeframe t.ts = c.time := hin t (by simp)
    have hstep : addTick b code t.price t.volume t.ts =
        (none, { b with currentCandles := (code, updTick c t) :: b.currentCandles }) := by
      simp [addTick, hcur, hst, hb, updTick]
    have hnext := ih { b with currentCandles := (code, updTick c t) :: b.currentCandles }
      code (updTick c t) (by simp [List.lookup]) (by simpa [updTick] using hst)
      (fun u hu => by simpa [updTick] using hin u (by simp [hu]))
    obtain ⟨n1, n2, n3, n4, n5⟩ := hnext
    rw [show (updTick c t).time = c.time from rfl] at n3
    refine ⟨?_, ?_, ?_, ?_, ?_⟩
    · simp [addTicks, hstep, n1, List.replicate_succ]
    · simp [addTicks, hstep, n2]
    · simp [addTicks, hstep, n3]
    · simp [addTicks, hstep, n4]
    · simp [addTicks, hstep, n5]

/-- C5.  For a symbol with no open candle, a non-empty tick sequence
confined to one bucket followed by a tick of a different bucket makes
`add_tick` return `None` for every in-bucket tick and exactly one
finalized candle at the rollover; that candle carries the bucket's start,
opens at the first in-bucket price, closes at the last, has its volume
equal to the sum of the in-bucket tick volumes, and satisfies
`low ≤ open, close ≤ high`. -/
theorem one_candle_per_bucket_rollover
    (b0 : BuilderState) (code : ℕ) (first : Tick) (rest : List Tick) (f : Tick)
    (hfresh : b0.currentCandles.lookup code = none)
    (hin : ∀ t ∈ first :: rest,
      bucketStart b0.timeframe t.ts = bucketStart b0.timeframe first.ts)
    (hout : bucketStart b0.timeframe f.ts ≠ bucketStart b0.timeframe first.ts) :
    (addTicks b0 code (first :: rest)).1 = List.replicate (rest.length + 1) none ∧
    ∃ c : Candle,
      (addTick (addTicks b0 code (first :: rest)).2 code f.price f.volume f.ts).1
          = some c ∧
      c.time = bucketStart b0.timeframe first.ts ∧
      c.open_ = first.price ∧
      c.close = ((first :: rest).getLast (List.cons_ne_nil _ _)).price ∧
      c.volume = ((first :: rest).map Tick.volume).sum ∧
      c.low ≤ c.open_ ∧ c.open_ ≤ c.high ∧ c.low ≤ c.close ∧ c.close ≤ c.high := by
  set B := bucketStart b0.timeframe first.ts with hB
  set c0 : Candle :=
    ⟨B, first.price, first.price, first.price, first.price, first.volume⟩ with hc0
  set b1 : BuilderState :=
    { b0 with currentCandles := (code, c0) :: b0.currentCandles,
              candleStartTimes := (code, B) :: b0.candleStartTimes } with hb1
  have hstep1 : addTick b0 code first.price first.volume first.ts = (none, b1) := by
    simp [addTick, hfresh, hb1, hc0, hB]
  have hrest := addTicks_inbucket rest b1 code c0 (by simp [hb1, List.lookup])
    (by simp [hb1, hc0, List.lookup])
    (fun u hu => by
      have := hin u (by simp [hu])
      simpa [hb1, hc0] using this)
  obtain ⟨n1, n2, n3, n4, n5⟩ := hrest
  have hsplit : addTicks b0 code (first :: rest)
      = (none :: (addTicks b1 code rest).1, (addTicks b1 code rest).2) := by
    simp [addTicks, hstep1]
  obtain ⟨ho, htime, hvol, hwfp, hclose⟩ := updTick_foldl rest c0
  have hwf0 : candleWF c0 := by
    simp [candleWF, hc0]
  have htf : (addTicks b1 code rest).2.timeframe = b0.timeframe := by
    rw [n5]
  refine ⟨?_, ?_⟩
  · rw [hsplit]
    simp [n1, List.replicate_succ]
  · refine ⟨rest.foldl updTick c0, ?_, ?_, ?_, ?_, ?_, ?_⟩
    · rw [hsplit]
      rw [addTick, n2, n3, htf]
      simp [hc0, Ne.symm hout]
    · rw [htime]
    · rw [ho]
    · cases rest with
      | nil => simp [hc0]
      | cons u rest' =>
        rw [hclose (by simp)]
        simp [List.getLast_cons]
    · rw [hvol]
      simp [hc0]
    · obtain ⟨w1, w2, w3, w4⟩ := hwfp hwf0
      exact ⟨w1, w2, w3, w4⟩

/-- First in-bucket tick of the witness scenario (price 100, volume 10, t=0). -/
def tickA : Tick := ⟨100, 10, 0⟩

/-- Second in-bucket tick (price 105, volume 5, t=60 s). -/
def tickB : Tick := ⟨105, 5, 60⟩

/-- Third in-bucket tick (price 95, volume 2, t=250 s). -/
def tickC : Tick := ⟨95, 2, 250⟩

/-- The rollover tick in the next 5-minute bucket (t=300 s). -/
def tickF : Tick := ⟨99, 1, 300⟩

/-- C5 (witness): three ticks inside the first 5-minute bucket produce no
candle; the tick at 300 s returns the single finalized candle. -/
theorem one_candle_per_bucket_rollover_witness :
    (addTicks (BuilderState.init 5) 1 (tickA :: [tickB, tickC])).1
        = List.replicate ([tickB, tickC].length + 1) none ∧
    ∃ c : Candle,
      (addTick (addTicks (BuilderState.init 5) 1 (tickA :: [tickB, tickC])).2 1
          tickF.price tickF.volume tickF.ts).1 = some c ∧
      c.time = bucketStart (BuilderState.init 5).timeframe tickA.ts ∧
      c.open_ = tickA.price ∧
      c.close = ((tickA :: [tickB, tickC]).getLast (List.cons_ne_nil _ _)).price ∧
      c.volume = ((tickA :: [tickB, tickC]).map Tick.volume).sum ∧
      c.low ≤ c.open_ ∧ c.open_ ≤ c.high ∧ c.low ≤ c.close ∧ c.close ≤ c.high :=
  one_candle_per_bucket_rollover (BuilderState.init 5) 1 tickA [tickB, tickC] tickF
    rfl (by intro t ht; fin_cases ht <;> rfl) (by decide)

/-! ### Polling loop: risk gate, exit evaluation and sell execution -/

/-- The per-symbol market context the polling loop reads: the shared
`current_price` and `candles_5m` dicts and the wall clock. -/
structure Market where
  prices : List (ℕ × ℚ)
  candles : List (ℕ × List Candle)
  now : ℕ
  deriving DecidableEq, Repr

/-- The `ExitInput` that `check_exit_signal(code, ...)` reads from the
shared market state. -/
def inputFor (m : Market) (code : ℕ) : ExitInput :=
  ⟨(m.prices.lookup code).getD 0, (m.candles.lookup code).getD [], m.now⟩

/-- The state owned by the main loop: the order manager's position map
(`self.order_mgr.positions`) and the performance tracker. -/
structure SysState where
  positions : List (ℕ × Position)
  tracker : Tracker
  deriving DecidableEq, Repr

/-- In-place dict write `positions[code] = pos`. -/
def updatePos (l : List (ℕ × Position)) (code : ℕ) (pos : Position) :
    List (ℕ × Position) :=
  l.map (fun p => if p.1 = code then (code, pos) else p)

/-- `del positions[code]`. -/
def erasePos (l : List (ℕ × Position)) (code : ℕ) : List (ℕ × Position) :=
  l.eraseP (fun p => p.1 == code)

/-- `AdvancedScalpingSystem.execute_sell` of `src/advanced_scalping_bot.py`
lines 979-1011: return silently if the code is not held; attempt
`market_sell` (its outcome is the external input `sellOk`); on success,
record the trade (profit from the current price) and delete the position;
on failure, do nothing at all — the position map, the tracker and every
counter stay untouched. -/
def executeSell (s : SysState) (m : Market) (sellOk : Bool) (code : ℕ)
    (reason : ExitReason) : SysState :=
  match s.positions.lookup code with
  | none => s
  | some pos =>
    if sellOk then
      let currentPrice := (m.prices.lookup code).getD 0
      let profit := (currentPrice - pos.buyPrice) * (pos.qty : ℚ)
      let profitRate := (currentPrice - pos.buyPrice) / pos.buyPrice
      { positions := erasePos s.positions code,
        tracker := recordTrade s.tracker code profit profitRate reason m.now }
    else s

/-- The body of the per-position check in `run_loop` (lines 1039-1045):
evaluate `check_exit_signal` (whose position mutations are written back to
the shared dict) and, if it fires, call `execute_sell`.  The second
component reports the attempted sell, if any. -/
def cycleStep (st : Strategy) (m : Market) (sellOk : ℕ → Bool)
    (s : SysState) (code : ℕ) : SysState × Option (ℕ × ExitReason) :=
  match s.positions.lookup code with
  | none => (s, none)
  | some pos =>
    let res := checkExitSignal st (inputFor m code) pos
    let s := { s with positions := updatePos s.positions code res.2 }
    match res.1 with
    | none => (s, none)
    | some r => (executeSell s m (sellOk code) code r, some (code, r))

/-- The `for code in list(self.order_mgr.positions.keys())` loop over a
snapshot of the keys. -/
def cycleFold (st : Strategy) (m : Market) (sellOk : ℕ → Bool)
    (ks : List ℕ) (init : SysState × List (ℕ × ExitReason)) :
    SysState × List (ℕ × ExitReason) :=
  ks.foldl
    (fun acc code =>
      let r := cycleStep st m sellOk acc.1 code
      (r.1, acc.2 ++ r.2.toList))
    init

/-- One iteration of `AdvancedScalpingSystem.run_loop`
(`src/advanced_scalping_bot.py` lines 1021-1052): first the TIER-5 risk
check — when `should_stop_trading()` is true the iteration logs, sleeps
60 s and `continue`s, touching nothing, so no exit evaluation and no sell
attempt happens; otherwise every held code is checked and a sell is
attempted for each firing exit signal.  Returns the new state and the
sells attempted this cycle. -/
def runCycle (st : Strategy) (m : Market) (sellOk : ℕ → Bool) (s : SysState) :
    SysState × List (ℕ × ExitReason) :=
  if shouldStopTrading st s.tracker m.now then (s, [])
  else cycleFold st m sellOk (s.positions.map Prod.fst) (s, [])

/-- Association-list lookup skips a head with a different key. -/
theorem lookup_cons_ne {α : Type _} (code : ℕ) (p : ℕ × α) (t : List (ℕ × α))
    (h : (code == p.1) = false) : List.lookup code (p :: t) = List.lookup code t := by
  simp [List.lookup, h]

/-- Association-list lookup stops at a head with the same key. -/
theorem lookup_cons_self {α : Type _} (code : ℕ) (p : ℕ × α) (t : List (ℕ × α))
    (h : (code == p.1) = true) : List.lookup code (p :: t) = some p.2 := by
  simp [List.lookup, h]

/-- Rewriting another code's entry does not change this code's lookup. -/
theorem lookup_updatePos_ne (l : List (ℕ × Position)) (c code : ℕ) (pos : Position)
    (hne : c ≠ code) : (updatePos l c pos).lookup code = l.lookup code := by
  have hcc : (code == c) = false := beq_false_of_ne (Ne.symm hne)
  induction l with
  | nil => rfl
  | cons p t ih =>
    have ih' : (List.map (fun p => if p.1 = c then (c, pos) else p) t).lookup code
        = t.lookup code := by simpa [updatePos] using ih
    by_cases hp : p.1 = c
    · have h2 : (code == p.1) = false := by rw [hp]; exact hcc
      simp only [updatePos, List.map_cons, if_pos hp]
      rw [lookup_cons_ne code (c, pos) _ hcc, lookup_cons_ne code p t h2]
      exact ih'
    · by_cases hq : code = p.1
      · have h2 : (code == p.1) = true := beq_iff_eq.mpr hq
        simp only [updatePos, List.map_cons, if_neg hp]
        rw [lookup_cons_self code p _ h2, lookup_cons_self code p t h2]
      · have h2 : (code == p.1) = false := beq_false_of_ne hq
        simp only [updatePos, List.map_cons, if_neg hp]
        rw [lookup_cons_ne code p _ h2, lookup_cons_ne code p t h2]
        exact ih'

/-- Deleting another code's entry does not change this code's lookup. -/
theorem lookup_erasePos_ne (l : List (ℕ × Position)) (c code : ℕ)
    (hne : c ≠ code) : (erasePos l c).lookup code = l.lookup code := by
  induction l with
  | nil => rfl
  | cons p t ih =>
    by_cases hp : p.1 = c
    · have h2 : (code == p.1) = false := beq_false_of_ne (by rw [hp]; exact Ne.symm hne)
      simp only [erasePos, List.eraseP_cons, beq_iff_eq.mpr hp, cond_true]
      rw [lookup_cons_ne code p t h2]
    · simp only [erasePos, List.eraseP_cons, beq_eq_false_iff_ne.mpr hp, cond_false]
      by_cases hq : code = p.1
      · have h2 : (code == p.1) = true := beq_iff_eq.mpr hq
        rw [lookup_cons_self code p _ h2, lookup_cons_self code p t h2]
      · have h2 : (code == p.1) = false := beq_false_of_ne hq
        rw [lookup_cons_ne code p _ h2, lookup_cons_ne code p t h2]
        simpa [erasePos] using ih

/-- Processing another code leaves this code's position entry unchanged. -/
theorem cycleStep_lookup_ne (st : Strategy) (m : Market) (sellOk : ℕ → Bool)
    (s : SysState) (c code : ℕ) (hne : c ≠ code) :
    ((cycleStep st m sellOk s c).1).positions.lookup code = s.positions.lookup code := by
  rw [cycleStep]
  cases hc : s.positions.lookup c with
  | none => rfl
  | some pos =>
    simp only []
    set s1 : SysState :=
      { s with positions := updatePos s.positions c (checkExitSignal st (inputFor m c) pos).2 }
      with hs1
    have h1 : s1.positions.lookup code = s.positions.lookup code := by
      rw [hs1]
      exact lookup_updatePos_ne _ _ _ _ hne
    cases hr : (checkExitSignal st (inputFor m c) pos).1 with
    | none => simpa using h1
    | some r =>
      simp only []
      rw [executeSell]
      cases hc1 : s1.positions.lookup c with
      | none => simpa using h1
      | some pos1 =>
        cases hok : sellOk c with
        | false => simpa [hok] using h1
        | true =>
          simp only [hok, if_true]
          rw [← h1]
          exact lookup_erasePos_ne _ _ _ hne

/-- The attempted-sell log only grows along the fold. -/
theorem cycleFold_mono (st : Strategy) (m : Market) (sellOk : ℕ → Bool)
    (ks : List ℕ) : ∀ init : SysState × List (ℕ × ExitReason),
    ∃ l, (cycleFold st m sellOk ks init).2 = init.2 ++ l := by
  induction ks with
  | nil => intro init; exact ⟨[], by simp [cycleFold]⟩
  | cons c ks ih =>
    intro init
    obtain ⟨l, hl⟩ := ih ((cycleStep st m sellOk init.1 c).1,
      init.2 ++ (cycleStep st m sellOk init.1 c).2.toList)
    exact ⟨(cycleStep st m sellOk init.1 c).2.toList ++ l, by
      simp [cycleFold] at hl ⊢
      rw [hl]⟩

/-- Every held position whose exit signal fires gets a sell attempt during
the fold over the key snapshot. -/
theorem cycleFold_eval (st : Strategy) (m : Market) (sellOk : ℕ → Bool)
    (ks : List ℕ) : ∀ (s : SysState) (acc : List (ℕ × ExitReason))
    (code : ℕ) (pos : Position) (r : ExitReason),
    code ∈ ks → s.positions.lookup code = some pos →
    (checkExitSignal st (inputFor m code) pos).1 = some r →
    (code, r) ∈ (cycleFold st m sellOk ks (s, acc)).2 := by
  induction ks with
  | nil => intro s acc code pos r hmem; cases hmem
  | cons c ks ih =>
    intro s acc code pos r hmem hpos hfire
    by_cases hc : c = code
    · subst hc
      have hstep : (cycleStep st m sellOk s c).2 = some (c, r) := by
        rw [cycleStep, hpos]
        simp only [hfire]
      have : (cycleFold st m sellOk (c :: ks) (s, acc)) =
          cycleFold st m sellOk ks ((cycleStep st m sellOk s c).1,
            acc ++ (cycleStep st m sellOk s c).2.toList) := by
        simp [cycleFold]
      rw [this]
      obtain ⟨l, hl⟩ := cycleFold_mono st m sellOk ks
        ((cycleStep st m sellOk s c).1, acc ++ (cycleStep st m sellOk s c).2.toList)
      rw [hl]
      simp [hstep]
    · have hmem' : code ∈ ks := by
        cases hmem with
        | head => exact absurd rfl hc
        | tail _ h => exact h
      have hpres := cycleStep_lookup_ne st m sellOk s c code hc
      have : (cycleFold st m sellOk (c :: ks) (s, acc)) =
          cycleFold st m sellOk ks ((cycleStep st m sellOk s c).1,
            acc ++ (cycleStep st m sellOk s c).2.toList) := by
        simp [cycleFold]
      rw [this]
      exact ih _ _ code pos r hmem' (hpres.trans hpos) hfire

/-- A key with a stored position is in the key snapshot. -/
theorem lookup_mem_keys (l : List (ℕ × Position)) (code : ℕ) (pos : Position)
    (h : l.lookup code = some pos) : code ∈ l.map Prod.fst := by
  induction l with
  | nil => cases h
  | cons p t ih =>
    by_cases hq : code = p.1
    · simp [hq]
    · rw [lookup_cons_ne code p t (beq_false_of_ne hq)] at h
      simp [ih h]

/-- C3 (amended).  When `shouldStopTrading()` is true the run loop skips
the whole iteration (`continue`) before the position checks, so the risk
gate blocks exits as well: no exit evaluation runs, no sell is attempted
and the state is untouched.  Only in cycles where it is false does every
held position whose exit signal fires get a sell attempt. -/
theorem risk_stop_skips_cycle :
    (∀ (st : Strategy) (m : Market) (sellOk : ℕ → Bool) (s : SysState),
      shouldStopTrading st s.tracker m.now = true →
      runCycle st m sellOk s = (s, [])) ∧
    (∀ (st : Strategy) (m : Market) (sellOk : ℕ → Bool) (s : SysState)
        (code : ℕ) (pos : Position) (r : ExitReason),
      shouldStopTrading st s.tracker m.now = false →
      s.positions.lookup code = some pos →
      (checkExitSignal st (inputFor m code) pos).1 = some r →
      (code, r) ∈ (runCycle st m sellOk s).2) := by
  constructor
  · intro st m sellOk s h
    simp [runCycle, h]
  · intro st m sellOk s code pos r hstop hpos hfire
    rw [runCycle, if_neg (by simp [hstop])]
    exact cycleFold_eval st m sellOk _ s [] code pos r
      (lookup_mem_keys _ _ _ hpos) hpos hfire

/-- A tracker state in cooldown (three consecutive losses, the last 10 s
ago at evaluation time) holding one open position on symbol 1. -/
def stoppedState : SysState :=
  { positions := [(1, posAt10000)], tracker := stubTracker }

/-- A market in which symbol 1 trades at 9,000 — 10% under the 10,000
entry, far past the 2.5% hard stop. -/
def crashMarket : Market :=
  { prices := [(1, 9000)], candles := [], now := 10 }

/-- C3 (counterexample).  With the risk governor signalling stop (three
consecutive losses, cooldown running) and an open position 10% underwater,
the cycle performs no exit evaluation and attempts no sell — the hard-stop
exit that `check_exit_signal` would fire is blocked by the risk governor,
contradicting the claim that exits are never blocked. -/
theorem risk_stop_blocks_exits_counterexample :
    shouldStopTrading defaultStrategy stoppedState.tracker crashMarket.now = true ∧
    (checkExitSignal defaultStrategy (inputFor crashMarket 1) posAt10000).1
        = some ExitReason.hardStop ∧
    runCycle defaultStrategy crashMarket (fun _ => true) stoppedState
        = (stoppedState, []) := by
  have h1 : shouldStopTrading defaultStrategy stoppedState.tracker crashMarket.now = true := by
    norm_num [shouldStopTrading, consecLossStop, stoppedState, stubTracker,
      crashMarket, tdSeconds, defaultStrategy]
  refine ⟨h1, ?_, ?_⟩
  · norm_num [checkExitSignal, inputFor, crashMarket, posAt10000, defaultStrategy,
      tdSeconds, techStopHit, emergencyHit, prevLow]
  · simp [runCycle, h1]

/-- A fresh tracker (no losses) holding the same underwater position. -/
def activeState : SysState :=
  { positions := [(1, posAt10000)], tracker := Tracker.init 1000000 }

/-- C3 (witness): in cooldown the cycle does nothing; with the gate open
the same market state produces the hard-stop sell attempt. -/
theorem risk_stop_skips_cycle_witness :
    runCycle defaultStrategy crashMarket (fun _ => true) stoppedState
        = (stoppedState, []) ∧
    (1, ExitReason.hardStop)
        ∈ (runCycle defaultStrategy crashMarket (fun _ => true) activeState).2 :=
  ⟨risk_stop_skips_cycle.1 defaultStrategy crashMarket (fun _ => true) stoppedState
      (by norm_num [shouldStopTrading, consecLossStop, stoppedState, stubTracker,
        crashMarket, tdSeconds, defaultStrategy]),
   risk_stop_skips_cycle.2 defaultStrategy crashMarket (fun _ => true) activeState
      1 posAt10000 ExitReason.hardStop
      (by norm_num [shouldStopTrading, consecLossStop, activeState, Tracker.init,
        crashMarket, tdSeconds, defaultStrategy, getDay, DayStats.zero,
        getWinRate, getMdd])
      rfl
      (by norm_num [checkExitSignal, inputFor, crashMarket, posAt10000,
        defaultStrategy, tdSeconds, techStopHit, emergencyHit, prevLow])⟩

/-- C4.  When `market_sell` fails, `execute_sell` changes nothing at all:
the position stays in the map, no TradeRecord is appended and no
capital/risk counter moves (the whole system state is equal to what it
was); and in any later cycle whose risk gate is open the surviving
position is evaluated again, producing a fresh sell attempt if its exit
signal still fires. -/
theorem sell_failure_state_unchanged :
    (∀ (s : SysState) (m : Market) (code : ℕ) (reason : ExitReason),
      executeSell s m false code reason = s) ∧
    (∀ (st : Strategy) (m : Market) (sellOk : ℕ → Bool) (s : SysState)
        (code : ℕ) (pos : Position) (r : ExitReason),
      shouldStopTrading st s.tracker m.now = false →
      s.positions.lookup code = some pos →
      (checkExitSignal st (inputFor m code) pos).1 = some r →
      (code, r) ∈ (runCycle st m sellOk s).2) := by
  constructor
  · intro s m code reason
    rw [executeSell]
    cases s.positions.lookup code <;> simp
  · intro st m sellOk s code pos r hstop hpos hfire
    rw [runCycle, if_neg (by simp [hstop])]
    exact cycleFold_eval st m sellOk _ s [] code pos r
      (lookup_mem_keys _ _ _ hpos) hpos hfire

/-- C4 (witness): a failed sell leaves the concrete state identical, and
the cycle in which every sell fails still attempts (and will re-attempt)
the hard-stop exit. -/
theorem sell_failure_state_unchanged_witness :
    executeSell activeState crashMarket false 1 ExitReason.hardStop = activeState ∧
    (1, ExitReason.hardStop)
        ∈ (runCycle defaultStrategy crashMarket (fun _ => false) activeState).2 :=
  ⟨sell_failure_state_unchanged.1 activeState crashMarket 1 ExitReason.hardStop,
   sell_failure_state_unchanged.2 defaultStrategy crashMarket (fun _ => false)
      activeState 1 posAt10000 ExitReason.hardStop
      (by norm_num [shouldStopTrading, consecLossStop, activeState, Tracker.init,
        crashMarket, tdSeconds, defaultStrategy, getDay, DayStats.zero,
        getWinRate, getMdd])
      rfl
      (by norm_num [checkExitSignal, inputFor, crashMarket, posAt10000,
        defaultStrategy, tdSeconds, techStopHit, emergencyHit, prevLow])⟩

end ATR
